import Mathlib

/-!
# FlexPool — verification of the Pentair link-layer codec and transport

Shallow embedding of the FlexPool repository's protocol code:

* `src/Controller/PentairProtocol.h` — the frame codec (`pentairChecksum`,
  `pentairVerifyChecksum`, `pentairFindMessage`, `pentairPacketLength`,
  `pentairBuildPacket`) and the protocol constants;
* `src/FlexPool_ESP32/src/RS485.cpp` — the half-duplex RS-485 transport;
* the command scheduler of the Controller firmware, whose source file
  (`Controller.ino`) is not part of the provided sources: only its
  declarations (`PumpStatus.h`, the constants of `PentairProtocol.h`, and
  `extern PumpStatus pumpStatus` in `MQTTHandler.h`) are present, so that
  component is modelled from the specification where needed.

Bytes are modelled as `Nat` values; the representation invariant of a
`uint8_t*` buffer is that every entry is `< 256`.  `uint16_t` arithmetic
is `Nat` arithmetic taken `% 65536`.
-/

/-! ## Protocol constants (src/Controller/PentairProtocol.h) -/

/-- `PENTAIR_MIN_PKT_LEN`: preamble(4) + ver + dst + src + cmd + len + checksum(2). -/
def PENTAIR_MIN_PKT_LEN : Nat := 11

/-- `PKT_IDX_LEAD`: index of the 0xA5 lead byte, start of the checksummed region. -/
def PKT_IDX_LEAD : Nat := 3

/-- `PKT_IDX_LEN`: index of the data-length byte. -/
def PKT_IDX_LEN : Nat := 8

/-- `PENTAIR_VERSION`: the version byte, always 0x00. -/
def PENTAIR_VERSION : Nat := 0x00

/-- `ADDR_BROADCAST`. -/
def ADDR_BROADCAST : Nat := 0x0F

/-- `ADDR_REMOTE_CONTROLLER`: the address this engine answers to. -/
def ADDR_REMOTE_CONTROLLER : Nat := 0x20

/-- `CMD_STATUS`: status request CFI. -/
def CMD_STATUS : Nat := 0x07

/-- `STAT_DATA_LEN`: length of the status-response data block. -/
def STAT_DATA_LEN : Nat := 15

/-- `EXT_PROG_REPEAT_INTERVAL`: external-program re-send cadence, ms. -/
def EXT_PROG_REPEAT_INTERVAL : Nat := 30000

/-- `CMD_RESPONSE_TIMEOUT` in ms. -/
def CMD_RESPONSE_TIMEOUT : Nat := 2000

/-- `STATUS_QUERY_INTERVAL` in ms. -/
def STATUS_QUERY_INTERVAL : Nat := 15000

/-! ## Frame codec (src/Controller/PentairProtocol.h) -/

/-- `pentairChecksum(packet, length)`: `uint16_t` sum of `packet[i]` for
`i` in `[PKT_IDX_LEAD, length - 2)`, i.e. from the 0xA5 lead byte through
the last data byte, the two checksum bytes excluded.  The `uint16_t`
accumulator wraps modulo 2^16. -/
def pentairChecksum (packet : List Nat) : Nat :=
  (((packet.take (packet.length - 2)).drop PKT_IDX_LEAD).sum) % 65536

/-- `pentairVerifyChecksum(packet, length)`: rejects buffers shorter than
`PENTAIR_MIN_PKT_LEN`, then compares the computed checksum with the
big-endian 16-bit value stored in the last two bytes. -/
def pentairVerifyChecksum (packet : List Nat) : Bool :=
  if packet.length < PENTAIR_MIN_PKT_LEN then false
  else
    pentairChecksum packet ==
      (packet.getD (packet.length - 2) 0) * 256 + packet.getD (packet.length - 1) 0

/-- Scan helper for `pentairFindMessage`: first index at which the 4-byte
preamble `FF 00 FF A5` occurs. -/
def findMarkerAux : List Nat → Nat → Option Nat
  | 0xFF :: 0x00 :: 0xFF :: 0xA5 :: _, i => some i
  | _ :: rest, i => findMarkerAux rest (i + 1)
  | [], _ => none

/-- `pentairFindMessage(buffer, length)`: returns -1 for buffers shorter
than `PENTAIR_MIN_PKT_LEN`, otherwise the index of the first occurrence
of the preamble `FF 00 FF A5`, or -1 if absent. -/
def pentairFindMessage (buffer : List Nat) : Int :=
  if buffer.length < PENTAIR_MIN_PKT_LEN then -1
  else
    match findMarkerAux buffer 0 with
    | some i => (i : Int)
    | none => -1

/-- `pentairPacketLength(packetStart)`:
preamble(4) + ver + dst + src + cmd + len + data + checksum(2). -/
def pentairPacketLength (packetStart : List Nat) : Nat :=
  4 + 1 + 1 + 1 + 1 + 1 + packetStart.getD PKT_IDX_LEN 0 + 2

/-- `pentairBuildPacket(buffer, dst, src, cmd, data, dataLen)`: writes the
preamble, version, destination, source, command, length byte and data,
then appends the big-endian `uint16_t` sum of bytes from `PKT_IDX_LEAD`
through the end of data.  `dataLen` is a `uint8_t`, so `data.length ≤ 255`
at every call site; the function returns the filled buffer. -/
def pentairBuildPacket (dst src cmd : Nat) (data : List Nat) : List Nat :=
  let body := [0xFF, 0x00, 0xFF, 0xA5, PENTAIR_VERSION, dst, src, cmd, data.length] ++ data
  let checksum := ((body.drop PKT_IDX_LEAD).sum) % 65536
  body ++ [checksum / 256, checksum % 256]

/-- The value the codec stores in the two checksum bytes of a built
packet: the `uint16_t` sum of the bytes from the 0xA5 lead byte through
the last data byte. -/
def pentairFrameSum (dst src cmd : Nat) (data : List Nat) : Nat :=
  (0xA5 + PENTAIR_VERSION + dst + src + cmd + data.length + data.sum) % 65536

/-! ## Decoded frame and pump status (src/Controller/PumpStatus.h) -/

/-- A decoded Pentair frame: version, destination, source, CFI and data. -/
structure PentairFrame where
  version : Nat
  dst : Nat
  src : Nat
  cmd : Nat
  data : List Nat
deriving DecidableEq

/-- `struct PumpStatus` of src/Controller/PumpStatus.h, fields in source
order with the source's default values given by `initPumpStatus`. -/
structure PumpStatus where
  valid : Bool
  running : Bool
  rpm : Nat
  watts : Nat
  gpm : Nat
  mode : Nat
  errCode : Nat
  drive : Nat
  timer : Nat
  hour : Nat
  minute : Nat
  lastUpdate : Nat
deriving DecidableEq

/-- The default-initialised `PumpStatus` (all zero, `valid = false`). -/
def initPumpStatus : PumpStatus :=
  { valid := false, running := false, rpm := 0, watts := 0, gpm := 0, mode := 0
    errCode := 0, drive := 0, timer := 0, hour := 0, minute := 0, lastUpdate := 0 }

/-- Modelled from the spec: decoding of a 15-byte `CMD_STATUS` response
into `PumpStatus`, per the `STAT_*` data indices declared in
src/Controller/PentairProtocol.h (run byte 0x0A means running; watts and
rpm are big-endian byte pairs).  The Controller firmware that performs
this parse is not among the provided sources. -/
def parseStatusData (d : List Nat) (now : Nat) : PumpStatus :=
  { valid := true
    running := d.getD 0 0 == 0x0A
    mode := d.getD 1 0
    drive := d.getD 2 0
    watts := d.getD 3 0 * 256 + d.getD 4 0
    rpm := d.getD 5 0 * 256 + d.getD 6 0
    gpm := d.getD 7 0
    errCode := d.getD 10 0
    timer := d.getD 12 0
    hour := d.getD 13 0
    minute := d.getD 14 0
    lastUpdate := now }

/-- Modelled from the spec: the engine's addressing state — its own
remote-controller address, the configured pump addresses, and the
last-known status it owns. -/
structure EngineState where
  ownAddr : Nat
  pumpAddrs : List Nat
  status : PumpStatus
deriving DecidableEq

/-- Modelled from the spec: frame dispatch of the Command Scheduler
(`onFrameReceived`), whose source (`Controller.ino`) is not among the
provided files.  Per the spec, the engine ignores every frame whose
destination is neither its own address nor `ADDR_BROADCAST`
(AddressMismatch, silently ignored), and updates its `PumpStatus` only
from a `CMD_STATUS` response whose source is a configured pump address. -/
def onFrameReceived (s : EngineState) (f : PentairFrame) (now : Nat) : EngineState :=
  if f.dst ≠ s.ownAddr ∧ f.dst ≠ ADDR_BROADCAST then s
  else if f.src ∈ s.pumpAddrs ∧ f.cmd = CMD_STATUS ∧ f.data.length = STAT_DATA_LEN then
    { s with status := parseStatusData f.data now }
  else s

/-! ## Command scheduler repeat timer (modelled from the spec) -/

/-- Modelled from the spec: the scheduler state while
`EXTERNAL_PROGRAM_ACTIVE` — the armed external-program command and the
time it was last issued.  The Controller firmware holding this state is
not among the provided sources; the 30000 ms cadence is
`EXT_PROG_REPEAT_INTERVAL` of src/Controller/PentairProtocol.h. -/
structure SchedState where
  extProgCmd : PentairFrame
  lastIssue : Nat
deriving DecidableEq

/-- Modelled from the spec: one scheduler `tick(now)`.  If the repeat
interval has elapsed since the last issue, the armed external-program
command is re-issued (emitted) and the issue time reset; otherwise
nothing happens. -/
def schedTick (s : SchedState) (now : Nat) : SchedState × List (Nat × PentairFrame) :=
  if s.lastIssue + EXT_PROG_REPEAT_INTERVAL ≤ now then
    ({ s with lastIssue := now }, [(now, s.extProgCmd)])
  else (s, [])

/-- Modelled from the spec: driving the scheduler through a sequence of
tick times, collecting every (time, command) emission in order. -/
def schedRun : SchedState → List Nat → SchedState × List (Nat × PentairFrame)
  | s, [] => (s, [])
  | s, t :: rest =>
    let p := schedTick s t
    let q := schedRun p.1 rest
    (q.1, p.2 ++ q.2)

/-! ## Half-duplex RS-485 transport (src/FlexPool_ESP32/src/RS485.cpp)

The serial port is modelled as the list of bytes waiting in its receive
buffer; each method returns its C return value together with the trace
of hardware effects it performs (DE/RE pin writes, guard delays, serial
accesses).  An uninitialised object performs no effects at all. -/

/-- `RS485_PRE_TX_DELAY_US` (src/FlexPool_ESP32/config.h). -/
def RS485_PRE_TX_DELAY_US : Nat := 10

/-- `RS485_POST_TX_DELAY_US` (src/FlexPool_ESP32/config.h). -/
def RS485_POST_TX_DELAY_US : Nat := 10

/-- A hardware side effect of an RS485 method. -/
inductive RSEffect where
  | pinWrite (pin : Nat) (high : Bool)
  | delayUs (us : Nat)
  | serialAvail
  | serialRead
  | serialPeek
  | serialWrite (bytes : List Nat)
  | serialFlush
deriving DecidableEq

/-- The RS485 object's own state: the DE/RE pin number and the
`initialized_` flag set by `begin`. -/
structure RS485State where
  de_re_pin : Nat
  initialized : Bool
deriving DecidableEq

/-- `RS485::available`: 0 without touching the port when uninitialised,
otherwise the number of bytes waiting. -/
def RS485.available (s : RS485State) (port : List Nat) : Int × List RSEffect :=
  if !s.initialized then (0, [])
  else ((port.length : Int), [RSEffect.serialAvail])

/-- `RS485::read`: -1 without touching the port when uninitialised,
otherwise pops one byte (or returns -1 on an empty port). -/
def RS485.read (s : RS485State) (port : List Nat) : Int × List Nat × List RSEffect :=
  if !s.initialized then (-1, port, [])
  else
    match port with
    | [] => (-1, [], [RSEffect.serialRead])
    | b :: rest => ((b : Int), rest, [RSEffect.serialRead])

/-- `RS485::peek`: -1 without touching the port when uninitialised,
otherwise the first waiting byte without consuming it (or -1). -/
def RS485.peek (s : RS485State) (port : List Nat) : Int × List RSEffect :=
  if !s.initialized then (-1, [])
  else
    match port with
    | [] => (-1, [RSEffect.serialPeek])
    | b :: _ => ((b : Int), [RSEffect.serialPeek])

/-- `RS485::readBytes`: 0 bytes and no effects when uninitialised.  The
initialised branch abstracts the `millis()`-based inter-byte timeout
loop (real time is not embeddable): it consumes up to `len` of the
waiting bytes, one serial read per byte. -/
def RS485.readBytes (s : RS485State) (len : Nat) (port : List Nat) :
    Nat × List Nat × List RSEffect :=
  if !s.initialized then (0, port, [])
  else
    let k := min len port.length
    (k, port.drop k, List.replicate k RSEffect.serialRead)

/-- `RS485::setTransmitMode`: DE/RE high, then the pre-transmit guard. -/
def RS485.setTransmitMode (s : RS485State) : List RSEffect :=
  [RSEffect.pinWrite s.de_re_pin true, RSEffect.delayUs RS485_PRE_TX_DELAY_US]

/-- `RS485::setReceiveMode`: the post-transmit guard, then DE/RE low. -/
def RS485.setReceiveMode (s : RS485State) : List RSEffect :=
  [RSEffect.delayUs RS485_POST_TX_DELAY_US, RSEffect.pinWrite s.de_re_pin false]

/-- `RS485::write(data, length)`: 0 and no effects when uninitialised,
otherwise transmit-enable, serial write of all bytes, flush (drain), and
return to receive mode, reporting all bytes written. -/
def RS485.write (s : RS485State) (data : List Nat) : Nat × List RSEffect :=
  if !s.initialized then (0, [])
  else
    (data.length,
      RS485.setTransmitMode s ++ [RSEffect.serialWrite data, RSEffect.serialFlush] ++
        RS485.setReceiveMode s)

/-- `RS485::write(byte)`: 0 and no effects when uninitialised, otherwise
the same turnaround sequence around a one-byte serial write. -/
def RS485.writeByte (s : RS485State) (b : Nat) : Nat × List RSEffect :=
  if !s.initialized then (0, [])
  else
    (1,
      RS485.setTransmitMode s ++ [RSEffect.serialWrite [b], RSEffect.serialFlush] ++
        RS485.setReceiveMode s)

example :
    pentairBuildPacket 0x60 0x20 0x07 [] =
      [0xFF, 0x00, 0xFF, 0xA5, 0x00, 0x60, 0x20, 0x07, 0x00, 0x01, 0x2C] := by
  decide

example : pentairFindMessage (pentairBuildPacket 0x60 0x20 0x07 []) = 0 := by decide

example : pentairVerifyChecksum (pentairBuildPacket 0x60 0x20 0x07 []) = true := by decide

example : pentairVerifyChecksum [0xFF, 0x00, 0xFF, 0xA5, 0, 0, 0, 0, 0, 0] = false := by
  decide

/-! ## Structure of a built packet -/

/-- A built packet is the 9-byte header, the data, and the two big-endian
checksum bytes holding `pentairFrameSum`. -/
theorem pentairBuildPacket_eq (dst src cmd : Nat) (data : List Nat) :
    pentairBuildPacket dst src cmd data =
      [0xFF, 0x00, 0xFF, 0xA5, PENTAIR_VERSION, dst, src, cmd, data.length] ++ data ++
        [pentairFrameSum dst src cmd data / 256, pentairFrameSum dst src cmd data % 256] := by
  simp only [pentairBuildPacket, pentairFrameSum, PKT_IDX_LEAD, List.cons_append,
    List.nil_append, List.drop_succ_cons, List.drop_zero, List.sum_cons, List.sum_append,
    List.append_assoc, List.cons.injEq, true_and]
  have h : 165 + (PENTAIR_VERSION + (dst + (src + (cmd + (data.length + data.sum))))) =
      165 + PENTAIR_VERSION + dst + src + cmd + data.length + data.sum := by ring
  rw [h]

/-- Length of a built packet. -/
theorem pentairBuildPacket_length (dst src cmd : Nat) (data : List Nat) :
    (pentairBuildPacket dst src cmd data).length = 11 + data.length := by
  rw [pentairBuildPacket_eq]
  simp [List.length_append]
  omega

/-- `pentairChecksum` recomputed over a built packet gives back exactly
the stored frame sum. -/
theorem pentairChecksum_build (dst src cmd : Nat) (data : List Nat) :
    pentairChecksum (pentairBuildPacket dst src cmd data) =
      pentairFrameSum dst src cmd data := by
  rw [pentairBuildPacket_eq]
  unfold pentairChecksum
  have h1 :
      ((([0xFF, 0x00, 0xFF, 0xA5, PENTAIR_VERSION, dst, src, cmd, data.length] ++ data) ++
          [pentairFrameSum dst src cmd data / 256,
           pentairFrameSum dst src cmd data % 256]).length - 2) =
        ([0xFF, 0x00, 0xFF, 0xA5, PENTAIR_VERSION, dst, src, cmd, data.length] ++
          data).length := by
    simp
  rw [h1, List.take_left]
  simp only [PKT_IDX_LEAD, pentairFrameSum, List.cons_append, List.nil_append,
    List.drop_succ_cons, List.drop_zero, List.sum_cons, List.sum_append]
  omega

/-- Checksum verification of a list of the form `A ++ [c/256, c%256]`
whose checksummed span sums to `c`. -/
theorem pentairVerify_of_parts (A : List Nat) (c : Nat) (hA : 9 ≤ A.length)
    (hsum : (A.drop 3).sum % 65536 = c) :
    pentairVerifyChecksum (A ++ [c / 256, c % 256]) = true := by
  unfold pentairVerifyChecksum pentairChecksum PKT_IDX_LEAD
  have hlen : (A ++ [c / 256, c % 256]).length = A.length + 2 := by simp
  rw [hlen]
  rw [if_neg (by unfold PENTAIR_MIN_PKT_LEN; omega)]
  have ht : A.length + 2 - 2 = A.length := by omega
  have ht1 : A.length + 2 - 1 = A.length + 1 := by omega
  rw [ht, ht1, List.take_left]
  have h2 : (A ++ [c / 256, c % 256]).getD A.length 0 = c / 256 := by
    rw [List.getD_append_right _ _ _ _ (Nat.le_refl _)]
    simp
  have h3 : (A ++ [c / 256, c % 256]).getD (A.length + 1) 0 = c % 256 := by
    rw [List.getD_append_right _ _ _ _ (by omega)]
    have h4 : A.length + 1 - A.length = 1 := by omega
    rw [h4]
    rfl
  rw [h2, h3, hsum]
  have h5 : c / 256 * 256 + c % 256 = c := by omega
  rw [h5]
  simp

/-- A built packet always passes `pentairVerifyChecksum`. -/
theorem pentairVerifyChecksum_build (dst src cmd : Nat) (data : List Nat) :
    pentairVerifyChecksum (pentairBuildPacket dst src cmd data) = true := by
  rw [pentairBuildPacket_eq]
  apply pentairVerify_of_parts
  · simp
  · simp only [List.cons_append, List.nil_append, List.drop_succ_cons, List.drop_zero,
      List.sum_cons, List.sum_append, pentairFrameSum]
    omega

/-- `findMarkerAux` answers immediately when the list starts with the
4-byte preamble. -/
theorem findMarkerAux_marker (l : List Nat) (i : Nat) :
    findMarkerAux (0xFF :: 0x00 :: 0xFF :: 0xA5 :: l) i = some i := rfl

/-- A built packet carries its preamble at index 0, so
`pentairFindMessage` locates it there. -/
theorem pentairFindMessage_build (dst src cmd : Nat) (data : List Nat) :
    pentairFindMessage (pentairBuildPacket dst src cmd data) = 0 := by
  unfold pentairFindMessage
  rw [pentairBuildPacket_length]
  rw [if_neg (by unfold PENTAIR_MIN_PKT_LEN; omega)]
  rw [pentairBuildPacket_eq]
  simp only [List.cons_append, List.nil_append]
  rw [findMarkerAux_marker]
  rfl

/-- Header bytes of a built packet read back as the corresponding entry
of the 9-byte header. -/
theorem build_getD_header (dst src cmd : Nat) (data : List Nat) (k : Nat) (hk : k < 9) :
    (pentairBuildPacket dst src cmd data).getD k 0 =
      [0xFF, 0x00, 0xFF, 0xA5, PENTAIR_VERSION, dst, src, cmd, data.length].getD k 0 := by
  rw [pentairBuildPacket_eq]
  rw [List.getD_append _ _ _ _ (by simp; omega)]
  rw [List.getD_append _ _ _ _ (by simpa using hk)]

/-! ## Claim theorems -/

/-- C1, counterexample: for the status-query packet built by the codec,
the appended 16-bit checksum (bytes 9 and 10, value 0x012C) does NOT
equal the sum of the bytes from the version byte (index 4, immediately
after the 4-byte marker) through the last data byte (0x87), and
`pentairChecksum` does not compute that version-byte-based sum either:
the code's span starts one byte earlier, at the 0xA5 marker byte. -/
theorem checksum_from_version_byte_counterexample :
    (pentairBuildPacket 0x60 0x20 0x07 []).getD 9 0 * 256 +
        (pentairBuildPacket 0x60 0x20 0x07 []).getD 10 0 ≠
      ((((pentairBuildPacket 0x60 0x20 0x07 []).take
          ((pentairBuildPacket 0x60 0x20 0x07 []).length - 2)).drop 4).sum) % 65536 ∧
    pentairChecksum (pentairBuildPacket 0x60 0x20 0x07 []) ≠
      ((((pentairBuildPacket 0x60 0x20 0x07 []).take
          ((pentairBuildPacket 0x60 0x20 0x07 []).length - 2)).drop 4).sum) % 65536 := by
  decide

/-- C1 (amended): for every packet built by the codec, the two appended
checksum bytes hold, big-endian, the 16-bit arithmetic sum of every byte
from the 0xA5 lead byte at index `PKT_IDX_LEAD = 3` (the final byte of
the 4-byte marker) through the last data byte inclusive, the two
checksum bytes never included; `pentairChecksum` computes its sum over
exactly that span, starting at the 0xA5 byte, not at the version byte. -/
theorem checksum_spans_from_lead_byte (dst src cmd : Nat) (data : List Nat) :
    (pentairBuildPacket dst src cmd data).drop (9 + data.length) =
      [pentairFrameSum dst src cmd data / 256, pentairFrameSum dst src cmd data % 256] ∧
    pentairChecksum (pentairBuildPacket dst src cmd data) =
      pentairFrameSum dst src cmd data := by
  constructor
  · rw [pentairBuildPacket_eq]
    have h : 9 + data.length =
        ([0xFF, 0x00, 0xFF, 0xA5, PENTAIR_VERSION, dst, src, cmd, data.length] ++
          data).length := by
      simp
      omega
    rw [h, List.drop_left]
  · exact pentairChecksum_build dst src cmd data

/-- C2: decoding inverts encoding — a built packet passes checksum
verification, `pentairFindMessage` finds its marker at index 0, and the
version, destination, source, command, length and data bytes read back
equal the inputs. -/
theorem pentair_encode_decode_roundtrip (dst src cmd : Nat) (data : List Nat)
    (h : data.length ≤ 255) :
    pentairVerifyChecksum (pentairBuildPacket dst src cmd data) = true ∧
    pentairFindMessage (pentairBuildPacket dst src cmd data) = 0 ∧
    (pentairBuildPacket dst src cmd data).getD 4 0 = PENTAIR_VERSION ∧
    (pentairBuildPacket dst src cmd data).getD 5 0 = dst ∧
    (pentairBuildPacket dst src cmd data).getD 6 0 = src ∧
    (pentairBuildPacket dst src cmd data).getD 7 0 = cmd ∧
    (pentairBuildPacket dst src cmd data).getD 8 0 = data.length ∧
    ((pentairBuildPacket dst src cmd data).drop 9).take data.length = data := by
  refine ⟨pentairVerifyChecksum_build dst src cmd data,
    pentairFindMessage_build dst src cmd data, ?_, ?_, ?_, ?_, ?_, ?_⟩
  · rw [build_getD_header dst src cmd data 4 (by norm_num)]
    rfl
  · rw [build_getD_header dst src cmd data 5 (by norm_num)]
    rfl
  · rw [build_getD_header dst src cmd data 6 (by norm_num)]
    rfl
  · rw [build_getD_header dst src cmd data 7 (by norm_num)]
    rfl
  · rw [build_getD_header dst src cmd data 8 (by norm_num)]
    rfl
  · rw [pentairBuildPacket_eq, List.append_assoc]
    have h9 : (9 : Nat) =
        ([0xFF, 0x00, 0xFF, 0xA5, PENTAIR_VERSION, dst, src, cmd, data.length] :
          List Nat).length := rfl
    rw [h9, List.drop_left, List.take_left]

/-- C2 witness: the round trip at a concrete write-register command. -/
theorem pentair_encode_decode_roundtrip_witness :
    pentairVerifyChecksum (pentairBuildPacket 0x60 0x20 0x01 [0x02, 0xC4, 0x07, 0xD0]) = true ∧
    pentairFindMessage (pentairBuildPacket 0x60 0x20 0x01 [0x02, 0xC4, 0x07, 0xD0]) = 0 ∧
    (pentairBuildPacket 0x60 0x20 0x01 [0x02, 0xC4, 0x07, 0xD0]).getD 4 0 = PENTAIR_VERSION ∧
    (pentairBuildPacket 0x60 0x20 0x01 [0x02, 0xC4, 0x07, 0xD0]).getD 5 0 = 0x60 ∧
    (pentairBuildPacket 0x60 0x20 0x01 [0x02, 0xC4, 0x07, 0xD0]).getD 6 0 = 0x20 ∧
    (pentairBuildPacket 0x60 0x20 0x01 [0x02, 0xC4, 0x07, 0xD0]).getD 7 0 = 0x01 ∧
    (pentairBuildPacket 0x60 0x20 0x01 [0x02, 0xC4, 0x07, 0xD0]).getD 8 0 =
      ([0x02, 0xC4, 0x07, 0xD0] : List Nat).length ∧
    ((pentairBuildPacket 0x60 0x20 0x01 [0x02, 0xC4, 0x07, 0xD0]).drop 9).take
        ([0x02, 0xC4, 0x07, 0xD0] : List Nat).length = [0x02, 0xC4, 0x07, 0xD0] :=
  pentair_encode_decode_roundtrip 0x60 0x20 0x01 [0x02, 0xC4, 0x07, 0xD0] (by decide)

/-- C3: encoding a status query (command 0x07, no data) to pump 0x60
from remote 0x20 yields exactly the 11 bytes
FF 00 FF A5 00 60 20 07 00 01 2C, the checksum 0x012C big-endian. -/
theorem status_query_frame_bytes :
    pentairBuildPacket 0x60 0x20 0x07 [] =
      [0xFF, 0x00, 0xFF, 0xA5, 0x00, 0x60, 0x20, 0x07, 0x00, 0x01, 0x2C] := by
  decide

/-- C6: for every payload of at most 255 bytes (all a `uint8_t` length
can express), `pentairBuildPacket` succeeds outright, producing the full
frame with two in-range checksum bytes; no error is ever signalled. -/
theorem build_packet_total_no_error (dst src cmd : Nat) (data : List Nat)
    (h : data.length ≤ 255) :
    ∃ hi lo, hi < 256 ∧ lo < 256 ∧
      pentairBuildPacket dst src cmd data =
        [0xFF, 0x00, 0xFF, 0xA5, PENTAIR_VERSION, dst, src, cmd, data.length] ++ data ++
          [hi, lo] := by
  refine ⟨pentairFrameSum dst src cmd data / 256, pentairFrameSum dst src cmd data % 256,
    ?_, ?_, pentairBuildPacket_eq dst src cmd data⟩
  · unfold pentairFrameSum
    omega
  · unfold pentairFrameSum
    omega

/-- C6 witness: the mode command at a concrete input. -/
theorem build_packet_total_no_error_witness :
    ∃ hi lo, hi < 256 ∧ lo < 256 ∧
      pentairBuildPacket 0x60 0x20 0x05 [0x09] =
        [0xFF, 0x00, 0xFF, 0xA5, PENTAIR_VERSION, 0x60, 0x20, 0x05,
          ([0x09] : List Nat).length] ++ [0x09] ++ [hi, lo] :=
  build_packet_total_no_error 0x60 0x20 0x05 [0x09] (by decide)

/-- C7: a built frame is exactly 4 + 5 + LEN + 2 = 11 + LEN bytes long,
and `pentairPacketLength` returns 11 plus the length byte at index 8 of
any buffer. -/
theorem frame_length_formula (dst src cmd : Nat) (data : List Nat)
    (h : data.length ≤ 255) :
    (pentairBuildPacket dst src cmd data).length = 11 + data.length ∧
    ∀ buffer : List Nat, pentairPacketLength buffer = 11 + buffer.getD 8 0 := by
  refine ⟨pentairBuildPacket_length dst src cmd data, ?_⟩
  intro buffer
  unfold pentairPacketLength PKT_IDX_LEN
  omega

/-- C7 witness: the length formula at a concrete input. -/
theorem frame_length_formula_witness :
    (pentairBuildPacket 0x60 0x20 0x06 [0x0A]).length = 11 + ([0x0A] : List Nat).length ∧
    ∀ buffer : List Nat, pentairPacketLength buffer = 11 + buffer.getD 8 0 :=
  frame_length_formula 0x60 0x20 0x06 [0x0A] (by decide)

/-- C9: every buffer shorter than 11 bytes is rejected unconditionally:
`pentairFindMessage` answers -1 and `pentairVerifyChecksum` answers
false, whatever the contents. -/
theorem short_buffer_rejected (buffer : List Nat) (h : buffer.length < 11) :
    pentairFindMessage buffer = -1 ∧ pentairVerifyChecksum buffer = false := by
  constructor
  · unfold pentairFindMessage
    rw [if_pos (by unfold PENTAIR_MIN_PKT_LEN; omega)]
  · unfold pentairVerifyChecksum
    rw [if_pos (by unfold PENTAIR_MIN_PKT_LEN; omega)]

/-- C9 witness: a 10-byte buffer that even contains the complete marker
is still rejected by both receive-side functions. -/
theorem short_buffer_rejected_witness :
    pentairFindMessage [0xFF, 0x00, 0xFF, 0xA5, 0x00, 0x60, 0x20, 0x07, 0x00, 0x01] = -1 ∧
    pentairVerifyChecksum [0xFF, 0x00, 0xFF, 0xA5, 0x00, 0x60, 0x20, 0x07, 0x00, 0x01] =
      false :=
  short_buffer_rejected [0xFF, 0x00, 0xFF, 0xA5, 0x00, 0x60, 0x20, 0x07, 0x00, 0x01]
    (by decide)

/-! ## Single-byte corruption -/

/-- Replacing one entry changes a list's sum by exactly the difference. -/
theorem sum_set_add (l : List Nat) (i v : Nat) (h : i < l.length) :
    (l.set i v).sum + l.getD i 0 = l.sum + v := by
  induction l generalizing i with
  | nil => simp at h
  | cons a t ih =>
    cases i with
    | zero => simp [List.getD]; omega
    | succ n =>
      have ht := ih n (by simpa using h)
      simp only [List.set, List.sum_cons, List.getD_cons_succ]
      omega

/-- `set` before an in-range `take` commutes. -/
theorem set_take_comm (l : List Nat) (i v n : Nat) (h : i < n) :
    (l.set i v).take n = (l.take n).set i v := by
  induction l generalizing i n with
  | nil => simp
  | cons a t ih =>
    cases n with
    | zero => omega
    | succ m =>
      cases i with
      | zero => simp
      | succ j =>
        simp only [List.set, List.take]
        rw [ih j m (by omega)]

/-- `set` past a `drop` commutes, shifting the index. -/
theorem set_drop_comm (l : List Nat) (i v k : Nat) (h : k ≤ i) :
    (l.set i v).drop k = (l.drop k).set (i - k) v := by
  induction l generalizing i k with
  | nil => simp
  | cons a t ih =>
    cases k with
    | zero => simp
    | succ m =>
      cases i with
      | zero => omega
      | succ j =>
        simp only [List.set, List.drop]
        rw [ih j m (by omega)]
        have hj : j + 1 - (m + 1) = j - m := by omega
        rw [hj]

/-- `getD` at an untouched index is unchanged by `set`. -/
theorem getD_set_ne (l : List Nat) (i j v d : Nat) (h : i ≠ j) :
    (l.set i v).getD j d = l.getD j d := by
  rw [List.getD_eq_getElem?_getD, List.getD_eq_getElem?_getD, List.getElem?_set_ne h]

/-- C4, counterexample: flipping byte 0 of a valid frame (a preamble
byte, not one of the two trailing checksum bytes) does NOT make
`pentairVerifyChecksum` fail — the first three preamble bytes are
outside the checksummed span, so verification still passes. -/
theorem flip_preamble_byte_counterexample :
    ((pentairBuildPacket 0x60 0x20 0x07 []).set 0 0x00).getD 0 0 ≠
        (pentairBuildPacket 0x60 0x20 0x07 []).getD 0 0 ∧
    pentairVerifyChecksum ((pentairBuildPacket 0x60 0x20 0x07 []).set 0 0x00) = true := by
  decide

/-- C4 (amended): for every buffer passing checksum verification and
every byte position inside the checksummed span — from the 0xA5 lead
byte at index 3 through the last data byte, i.e. excluding the first
three preamble bytes as well as the two trailing checksum bytes —
replacing the byte there with any different byte value makes
`pentairVerifyChecksum` return false. -/
theorem flip_checksummed_byte_fails_verify (p : List Nat) (i v : Nat)
    (hok : pentairVerifyChecksum p = true)
    (h3 : 3 ≤ i) (hi : i + 2 < p.length)
    (hb : p.getD i 0 < 256) (hv : v < 256) (hne : v ≠ p.getD i 0) :
    pentairVerifyChecksum (p.set i v) = false := by
  have hlen : (p.set i v).length = p.length := List.length_set p i v
  unfold pentairVerifyChecksum at hok ⊢
  by_cases hl : p.length < PENTAIR_MIN_PKT_LEN
  · rw [if_pos hl] at hok
    exact absurd hok (by simp)
  · rw [if_neg hl] at hok
    rw [hlen, if_neg hl]
    have h11 : 11 ≤ p.length := by
      unfold PENTAIR_MIN_PKT_LEN at hl
      omega
    have hok2 : pentairChecksum p =
        p.getD (p.length - 2) 0 * 256 + p.getD (p.length - 1) 0 := by
      simpa using hok
    have hr2 : (p.set i v).getD (p.length - 2) 0 = p.getD (p.length - 2) 0 :=
      getD_set_ne p i (p.length - 2) v 0 (by omega)
    have hr1 : (p.set i v).getD (p.length - 1) 0 = p.getD (p.length - 1) 0 :=
      getD_set_ne p i (p.length - 1) v 0 (by omega)
    rw [hr1, hr2]
    have hspan : pentairChecksum (p.set i v) =
        ((((p.take (p.length - 2)).drop 3).set (i - 3) v).sum) % 65536 := by
      unfold pentairChecksum PKT_IDX_LEAD
      rw [hlen]
      rw [set_take_comm p i v (p.length - 2) (by omega)]
      rw [set_drop_comm (p.take (p.length - 2)) i v 3 h3]
    have holdc : pentairChecksum p = (((p.take (p.length - 2)).drop 3).sum) % 65536 := by
      unfold pentairChecksum PKT_IDX_LEAD
      rfl
    have hsl : ((p.take (p.length - 2)).drop 3).length = p.length - 2 - 3 := by
      rw [List.length_drop, List.length_take, Nat.min_eq_left (by omega)]
    have hgd : ((p.take (p.length - 2)).drop 3).getD (i - 3) 0 = p.getD i 0 := by
      rw [List.getD_eq_getElem?_getD, List.getD_eq_getElem?_getD, List.getElem?_drop]
      have h1 : 3 + (i - 3) = i := by omega
      rw [h1]
      rw [List.getElem?_take]
      rw [if_pos (by omega)]
    have hsum := sum_set_add ((p.take (p.length - 2)).drop 3) (i - 3) v (by omega)
    rw [hgd] at hsum
    rw [hspan]
    have hnew : ((((p.take (p.length - 2)).drop 3).set (i - 3) v).sum) % 65536 ≠
        (((p.take (p.length - 2)).drop 3).sum) % 65536 := by
      omega
    rw [holdc] at hok2
    simp only [beq_eq_false_iff_ne, ne_eq]
    omega

/-- C4 witness: flipping the command byte (index 7) of a concrete valid
frame breaks verification. -/
theorem flip_checksummed_byte_fails_verify_witness :
    pentairVerifyChecksum ((pentairBuildPacket 0x60 0x20 0x07 [0x05]).set 7 0x08) = false :=
  flip_checksummed_byte_fails_verify (pentairBuildPacket 0x60 0x20 0x07 [0x05]) 7 0x08
    (by decide) (by decide) (by decide) (by decide) (by decide) (by decide)

/-! ## Engine address filtering and scheduler repeat -/

/-- C5: the engine acts only on frames addressed to it — a frame whose
destination is neither the engine's own remote-controller address
(0x20–0x2F range) nor the broadcast address 0x0F leaves the whole state
unchanged, and the status is updated only from frames whose source is a
configured pump address (0x60–0x6F range): any other source leaves the
status untouched. -/
theorem engine_address_filtering (s : EngineState) (f : PentairFrame) (now : Nat)
    (hown : 0x20 ≤ s.ownAddr ∧ s.ownAddr ≤ 0x2F)
    (hpumps : ∀ a ∈ s.pumpAddrs, 0x60 ≤ a ∧ a ≤ 0x6F) :
    ((f.dst ≠ s.ownAddr ∧ f.dst ≠ ADDR_BROADCAST) → onFrameReceived s f now = s) ∧
    (f.src ∉ s.pumpAddrs → (onFrameReceived s f now).status = s.status) := by
  constructor
  · intro hdst
    unfold onFrameReceived
    rw [if_pos hdst]
  · intro hsrc
    unfold onFrameReceived
    by_cases hdst : f.dst ≠ s.ownAddr ∧ f.dst ≠ ADDR_BROADCAST
    · rw [if_pos hdst]
    · rw [if_neg hdst]
      rw [if_neg (fun hcon => hsrc hcon.1)]

/-- C5 witness: a frame for the main controller (destination 0x10) is
ignored entirely, and a frame from a non-pump source (0x10) leaves the
status unchanged. -/
theorem engine_address_filtering_witness :
    onFrameReceived ⟨0x20, [0x60], initPumpStatus⟩
        ⟨0x00, 0x10, 0x60, 0x07, [10, 0, 2, 1, 194, 13, 72, 30, 0, 0, 0, 0, 0, 8, 30]⟩ 5 =
      ⟨0x20, [0x60], initPumpStatus⟩ ∧
    (onFrameReceived ⟨0x20, [0x60], initPumpStatus⟩
        ⟨0x00, 0x20, 0x10, 0x07, [10, 0, 2, 1, 194, 13, 72, 30, 0, 0, 0, 0, 0, 8, 30]⟩
        5).status =
      initPumpStatus :=
  ⟨(engine_address_filtering ⟨0x20, [0x60], initPumpStatus⟩
      ⟨0x00, 0x10, 0x60, 0x07, [10, 0, 2, 1, 194, 13, 72, 30, 0, 0, 0, 0, 0, 8, 30]⟩ 5
      (by decide) (by decide)).1 (by decide),
   (engine_address_filtering ⟨0x20, [0x60], initPumpStatus⟩
      ⟨0x00, 0x20, 0x10, 0x07, [10, 0, 2, 1, 194, 13, 72, 30, 0, 0, 0, 0, 0, 8, 30]⟩ 5
      (by decide) (by decide)).2 (by decide)⟩

/-- If no tick time reaches the repeat deadline, the scheduler emits
nothing and its state does not change. -/
theorem schedRun_quiet (s : SchedState) :
    ∀ ts : List Nat, (∀ t ∈ ts, t < s.lastIssue + EXT_PROG_REPEAT_INTERVAL) →
      schedRun s ts = (s, []) := by
  intro ts
  induction ts with
  | nil => intro _; rfl
  | cons t rest ih =>
    intro h
    have ht := h t (List.mem_cons_self t rest)
    have htick : schedTick s t = (s, []) := by
      unfold schedTick
      rw [if_neg (by omega)]
    have hrest := ih (fun t2 ht2 => h t2 (List.mem_cons_of_mem t ht2))
    simp only [schedRun]
    rw [htick, hrest]
    rfl

/-- C8: with the scheduler in external-program mode (command issued at
`lastIssue`), running ticks during the following 30000 ms window — the
deadline tick `lastIssue + EXT_PROG_REPEAT_INTERVAL` among them — emits
the armed command exactly once, at exactly the 30000 ms mark: the
emission list is the one-element list, neither empty nor longer. -/
theorem ext_prog_reissued_exactly_once (s : SchedState) :
    ∀ ts : List Nat, (∀ t ∈ ts, t ≤ s.lastIssue + EXT_PROG_REPEAT_INTERVAL) →
      (s.lastIssue + EXT_PROG_REPEAT_INTERVAL) ∈ ts →
      (schedRun s ts).2 = [(s.lastIssue + EXT_PROG_REPEAT_INTERVAL, s.extProgCmd)] := by
  intro ts
  induction ts with
  | nil =>
    intro _ hmem
    simp at hmem
  | cons t rest ih =>
    intro hall hmem
    by_cases hfire : s.lastIssue + EXT_PROG_REPEAT_INTERVAL ≤ t
    · have hta := hall t (List.mem_cons_self t rest)
      have ht : t = s.lastIssue + EXT_PROG_REPEAT_INTERVAL := by omega
      have htick : schedTick s t = ({ s with lastIssue := t }, [(t, s.extProgCmd)]) := by
        unfold schedTick
        rw [if_pos hfire]
      have hproj : ({ s with lastIssue := t } : SchedState).lastIssue = t := rfl
      have hquiet := schedRun_quiet { s with lastIssue := t } rest (by
        intro t2 ht2
        have h2 := hall t2 (List.mem_cons_of_mem t ht2)
        rw [hproj]
        have hpos : 0 < EXT_PROG_REPEAT_INTERVAL := by norm_num [EXT_PROG_REPEAT_INTERVAL]
        omega)
      simp only [schedRun]
      rw [htick, hquiet, ht]
      rfl
    · have htick : schedTick s t = (s, []) := by
        unfold schedTick
        rw [if_neg hfire]
      have hmem2 : s.lastIssue + EXT_PROG_REPEAT_INTERVAL ∈ rest := by
        rcases List.mem_cons.mp hmem with h1 | h2
        · omega
        · exact h2
      have ih2 := ih (fun t2 ht2 => hall t2 (List.mem_cons_of_mem t ht2)) hmem2
      simp only [schedRun]
      rw [htick, ih2]
      rfl

/-- C8 witness: armed at time 0, ticking at 10000, 20000 and 30000 ms
re-issues the mode command exactly once, at the 30000 ms deadline. -/
theorem ext_prog_reissued_exactly_once_witness :
    (schedRun ⟨⟨0x00, 0x60, 0x20, 0x05, [0x09]⟩, 0⟩ [10000, 20000, 30000]).2 =
      [(30000, (⟨0x00, 0x60, 0x20, 0x05, [0x09]⟩ : PentairFrame))] :=
  ext_prog_reissued_exactly_once ⟨⟨0x00, 0x60, 0x20, 0x05, [0x09]⟩, 0⟩
    [10000, 20000, 30000] (by decide) (by decide)

/-! ## Uninitialised transport -/

/-- C10: before `begin` has set `initialized_`, every RS485 operation is
a no-op failure: `available` returns 0, `read` and `peek` return -1,
`readBytes` and both `write` overloads return 0, and none of them
performs any serial-port access, guard delay or DE/RE pin toggle (the
effect trace is empty and the port is untouched). -/
theorem rs485_uninitialized_noop (s : RS485State) (port data : List Nat) (len b : Nat)
    (h : s.initialized = false) :
    RS485.available s port = (0, []) ∧
    RS485.read s port = (-1, port, []) ∧
    RS485.peek s port = (-1, []) ∧
    RS485.readBytes s len port = (0, port, []) ∧
    RS485.write s data = (0, []) ∧
    RS485.writeByte s b = (0, []) := by
  unfold RS485.available RS485.read RS485.peek RS485.readBytes RS485.write RS485.writeByte
  rw [h]
  simp

/-- C10 witness: the no-op results at a concrete uninitialised object. -/
theorem rs485_uninitialized_noop_witness :
    RS485.available ⟨4, false⟩ [1, 2, 3] = (0, []) ∧
    RS485.read ⟨4, false⟩ [1, 2, 3] = (-1, [1, 2, 3], []) ∧
    RS485.peek ⟨4, false⟩ [1, 2, 3] = (-1, []) ∧
    RS485.readBytes ⟨4, false⟩ 2 [1, 2, 3] = (0, [1, 2, 3], []) ∧
    RS485.write ⟨4, false⟩ [0xFF, 0x00] = (0, []) ∧
    RS485.writeByte ⟨4, false⟩ 0xA5 = (0, []) :=
  rs485_uninitialized_noop ⟨4, false⟩ [1, 2, 3] [0xFF, 0x00] 2 0xA5 rfl
